import Mathlib

/-!
Verification development for the srmvec-cse-portal staff-portal backend.

The repository holds several revisions of one Express `server.js`:
* `src/server.js` lines 1-165   — fixed env-credential variant ("V0"): staff
  login against STAFF_EMAIL/STAFF_PHONE, notes in a JSON file, hard-coded
  secure-form URLs proxied with `https.get` and NO error listener.
* `src/server.js` lines 167-352 — diagnostic variant ("D"): staff resolved
  from a local staff.json list on every request, notes in an Azure table,
  env-configured secure-form URLs streamed with a 502 error handler.
* `src/unnamed/part_000` lines 1-176   — env-credential variant with table
  notes ("P0a").
* `src/unnamed/part_000` lines 177-407 — username+password bcrypt variant
  ("B"): staff records in the Azure table (partition "staff"), requireAuth
  trusts the signed cookie value without a record lookup, secure-form
  redirects to the configured URL.
* `src/unnamed/part_001` — staff.json variant ("P1"): live staff lookup in
  requireAuth, secure-form streams and forwards the remote status verbatim.
* `src/unnamed/part_002` — env-credential variant with defaults ("P2"):
  the notes read distinguishes a 404 backend error (empty success) from any
  other backend error (HTTP 500).
* `src/unnamed/part_003` — env-credential variant ("P3"): notes read
  collapses every failure to empty success; secure-form streams with a 500
  error handler.

Cookie-signature verification is ambient: `req.signedCookies` only ever
contains cookie values whose signature verified, so the model's
`SignedCookies` fields hold the already-verified values (`none` = cookie
absent or tampered).
-/

namespace Portal

/-- The signed cookies visible to a handler after cookie-parser
verification: `auth` is the staff session value, `adminAuth` the admin
session value. `none` models an absent (or signature-rejected) cookie. -/
structure SignedCookies where
  auth : Option String
  adminAuth : Option String
  deriving Repr, DecidableEq

/-- The distinct JSON/text bodies the handlers produce, kept structural so
responses can be compared exactly. -/
inductive Body where
  | empty
  | text (s : String)
  | jsonSuccess (success : Bool)
  | jsonSuccessMsg (success : Bool) (msg : String)
  | jsonMessage (msg : String)
  | jsonError (msg : String)
  | jsonNotes (notes : String)
  | jsonProfile (name email phone designation : String)
  deriving Repr, DecidableEq

/-- One HTTP response as the client observes it: status code, the headers
the handler set, the body, and any Set-Cookie actions (name, value). -/
structure HttpResp where
  status : Nat
  headers : List (String × String)
  body : Body
  setCookies : List (String × String)
  deriving Repr, DecidableEq

/-- One Azure-table entity. Different rows use different fields, so all
data fields are optional: a notes row carries `notes`, a staff row carries
`passwordHash`/`name`/`phone`. -/
structure Entity where
  partitionKey : String
  rowKey : String
  notes : Option String
  passwordHash : Option String
  name : Option String
  phone : Option String
  deriving Repr, DecidableEq

/-- One record of the local staff.json list used by variants D and P1. -/
structure Staff where
  email : String
  name : String
  phone : String
  designation : Option String
  deriving Repr, DecidableEq

/-- The per-category secure-form URL configuration
(GFORM_PLACEMENT / GFORM_ACHIEVEMENTS / GFORM_CODERIZZ, absent env var
collapsed to the empty string exactly as `process.env.X || ''` does). -/
structure FormCfg where
  placement : String
  achievements : String
  coderizz : String
  deriving Repr, DecidableEq

/-- Outcome of one `tableClient.getEntity` call: the entity's notes field
on success, a 404-style not-found error, or a connectivity/other error. -/
inductive GetOutcome where
  | ok (notes : Option String)
  | notFound
  | connError
  deriving Repr, DecidableEq

/-- Outcome of one `tableClient.upsertEntity` call. -/
inductive PutOutcome where
  | ok
  | error
  deriving Repr, DecidableEq

/-- Outcome of the outbound `https.get`: a remote response (status code,
optional content-type header, body bytes as a string), or a network error
delivered on the request's `error` event. `status = 0` stands for a falsy
`proxyRes.statusCode`. -/
inductive FetchOutcome where
  | success (status : Nat) (contentType : Option String) (body : String)
  | networkError
  deriving Repr, DecidableEq

/-- What the client ends up seeing from a proxy route: a written response,
or no response at all (the handler never writes one). -/
inductive ProxyOutcome where
  | sent (r : HttpResp)
  | noResponse
  deriving Repr, DecidableEq

/-- JavaScript `String(x)` on an optional value: `String(undefined)` is the
literal string "undefined" (what `res.cookie('auth', email)` stores when
`email` is undefined). -/
def jsString : Option String → String
  | some s => s
  | none => "undefined"

/-- Key test for a table entity, `partitionKey`/`rowKey` exact match. -/
def isKey (pk rk : String) (e : Entity) : Bool :=
  e.partitionKey == pk && e.rowKey == rk

/-- `tableClient.getEntity(pk, rk)` against a concrete table state. -/
def getEntity (t : List Entity) (pk rk : String) : Option Entity :=
  t.find? (isKey pk rk)

/-- The `requireAdmin` middleware, identical in every variant: pass only
when the signed `adminAuth` cookie is present and equals the literal
"true". -/
def adminOk (ck : SignedCookies) : Bool :=
  ck.adminAuth == some "true"

/-- Variant D `requireAuth` (src/server.js lines 252-264): reject a missing
or falsy `auth` cookie, then re-resolve the cookie value against the
staff.json list by exact email match; no matching record means 401. -/
def requireAuthD (staffList : List Staff) (ck : SignedCookies) : Option Staff :=
  match ck.auth with
  | none => none
  | some a => if a = "" then none else staffList.find? (fun s => s.email == a)

/-- Variant B `requireAuth` (src/unnamed/part_000 lines 256-261): only the
presence of a truthy signed `auth` cookie is checked; the value is trusted
as the username with no record lookup. -/
def requireAuthB (ck : SignedCookies) : Option String :=
  match ck.auth with
  | none => none
  | some a => if a = "" then none else some a

/-- Variant D `GET /api/me` (src/server.js lines 286-289): profile of the
re-resolved staff record. -/
def apiMeD (staffList : List Staff) (ck : SignedCookies) : HttpResp :=
  match requireAuthD staffList ck with
  | none => ⟨401, [], Body.jsonMessage "Unauthorized", []⟩
  | some s => ⟨200, [], Body.jsonProfile s.name s.email s.phone (s.designation.getD ""), []⟩

/-- The P1/D notes read path (`getNotesFromTable`, src/unnamed/part_001
lines 51-60, identical in src/server.js lines 235-244, composed with the
route body): an unconfigured client yields empty; the helper's catch
swallows both not-found and connectivity errors, so every outcome is an
empty-string success. -/
def notesReadP1 (configured : Bool) (o : GetOutcome) : HttpResp :=
  if !configured then ⟨200, [], Body.jsonNotes "", []⟩
  else
    match o with
    | GetOutcome.ok s => ⟨200, [], Body.jsonNotes (s.getD ""), []⟩
    | GetOutcome.notFound => ⟨200, [], Body.jsonNotes "", []⟩
    | GetOutcome.connError => ⟨200, [], Body.jsonNotes "", []⟩

/-- Variant P2 `GET /api/notes` read path (src/unnamed/part_002 lines
97-115): unconfigured or 404-style error yields an empty success, but any
other backend error is answered 500 with an empty notes body. -/
def notesReadP2 (configured : Bool) (o : GetOutcome) : HttpResp :=
  if !configured then ⟨200, [], Body.jsonNotes "", []⟩
  else
    match o with
    | GetOutcome.ok s => ⟨200, [], Body.jsonNotes (s.getD ""), []⟩
    | GetOutcome.notFound => ⟨200, [], Body.jsonNotes "", []⟩
    | GetOutcome.connError => ⟨500, [], Body.jsonNotes "", []⟩

/-- Variant P3 `GET /api/notes` read path (src/unnamed/part_003 lines
96-110): the route-level catch turns every failure into an empty-string
success. -/
def notesReadP3 (configured : Bool) (o : GetOutcome) : HttpResp :=
  if !configured then ⟨200, [], Body.jsonNotes "", []⟩
  else
    match o with
    | GetOutcome.ok s => ⟨200, [], Body.jsonNotes (s.getD ""), []⟩
    | GetOutcome.notFound => ⟨200, [], Body.jsonNotes "", []⟩
    | GetOutcome.connError => ⟨200, [], Body.jsonNotes "", []⟩

/-- Variant D `GET /api/notes` (src/server.js lines 291-299): the
requireAuth gate, then the P1-style read path. -/
def getNotesD (staffList : List Staff) (ck : SignedCookies)
    (configured : Bool) (o : GetOutcome) : HttpResp :=
  match requireAuthD staffList ck with
  | none => ⟨401, [], Body.jsonMessage "Unauthorized", []⟩
  | some _ => notesReadP1 configured o

/-- Variant D `POST /api/notes` (src/server.js lines 301-310): the
requireAuth gate, a 500 when no table client is configured, then success
or 500 according to the upsert outcome. -/
def postNotesD (staffList : List Staff) (ck : SignedCookies)
    (configured : Bool) (po : PutOutcome) : HttpResp :=
  match requireAuthD staffList ck with
  | none => ⟨401, [], Body.jsonMessage "Unauthorized", []⟩
  | some _ =>
    if !configured then ⟨500, [], Body.jsonSuccessMsg false "Storage not configured", []⟩
    else
      match po with
      | PutOutcome.ok => ⟨200, [], Body.jsonSuccess true, []⟩
      | PutOutcome.error => ⟨500, [], Body.jsonSuccess false, []⟩

/-- Variant B `getUser` (src/unnamed/part_000 lines 219-227): look the
username up as rowKey under partition "staff"; an unconfigured client or
any lookup failure yields null. -/
def getUserB (tc : Option (List Entity)) (username : String) : Option Entity :=
  match tc with
  | none => none
  | some t => getEntity t "staff" username

/-- Variant B `getNotesForUser` (src/unnamed/part_000 lines 236-244):
entity (username, "notes"), missing entry or error collapsed to "". -/
def getNotesForUser (tc : Option (List Entity)) (username : String) : String :=
  match tc with
  | none => ""
  | some t =>
    match getEntity t username "notes" with
    | some e => e.notes.getD ""
    | none => ""

/-- Variant B `GET /api/notes` (src/unnamed/part_000 lines 319-327): the
presence-only requireAuth gate, then the notes lookup for the trusted
cookie username. -/
def getNotesRouteB (tc : Option (List Entity)) (ck : SignedCookies) : HttpResp :=
  match requireAuthB ck with
  | none => ⟨401, [], Body.jsonMessage "Unauthorized", []⟩
  | some u => ⟨200, [], Body.jsonNotes (getNotesForUser tc u), []⟩

/-- Variant B `POST /api/staff/login` (src/unnamed/part_000 lines
269-293). `bc` is the one-way `bcrypt.compare(password, hash)` check,
abstracted as a function parameter. Falsy (missing or empty) username or
password is a 400; a missing record, a record without a truthy stored
hash, and a failed hash comparison each produce the same 401 response. -/
def staffLoginB (tc : Option (List Entity)) (bc : String → String → Bool)
    (username password : Option String) : HttpResp :=
  match username, password with
  | some u, some p =>
    if u = "" ∨ p = "" then ⟨400, [], Body.jsonSuccessMsg false "Missing", []⟩
    else
      match getUserB tc u with
      | none => ⟨401, [], Body.jsonSuccess false, []⟩
      | some e =>
        match e.passwordHash with
        | none => ⟨401, [], Body.jsonSuccess false, []⟩
        | some h =>
          if h = "" then ⟨401, [], Body.jsonSuccess false, []⟩
          else if bc p h then ⟨200, [], Body.jsonSuccess true, [("auth", u)]⟩
          else ⟨401, [], Body.jsonSuccess false, []⟩
  | _, _ => ⟨400, [], Body.jsonSuccessMsg false "Missing", []⟩

/-- Variant B `POST /api/admin/create-user` (src/unnamed/part_000 lines
363-382), response part: the requireAdmin gate, a 400 on falsy username or
password, a 500 when the table write is unavailable, else success. `hash`
abstracts `bcrypt.hash`. -/
def createUserB (tc : Option (List Entity)) (hash : String → String)
    (ck : SignedCookies) (username name phone password : Option String) : HttpResp :=
  if !adminOk ck then ⟨403, [], Body.jsonError "Forbidden", []⟩
  else
    match username, password with
    | some u, some p =>
      if u = "" ∨ p = "" then ⟨400, [], Body.jsonSuccessMsg false "Missing", []⟩
      else
        match tc with
        | none => ⟨500, [], Body.jsonSuccess false, []⟩
        | some _ => ⟨200, [], Body.jsonSuccess true, []⟩
    | _, _ => ⟨400, [], Body.jsonSuccessMsg false "Missing", []⟩

/-- Header list for a forwarded remote content-type: set only when the
remote supplied one. -/
def ctHeaders : Option String → List (String × String)
  | some c => [("Content-Type", c)]
  | none => []

/-- Category resolution for the env-configured secure-form variants
(`forms[req.params.type]`): an unknown key (undefined) and an empty
configured URL both fail the `!url` test, collapsed here to "". -/
def resolveForm (cfg : FormCfg) (ty : String) : String :=
  if ty = "placement" then cfg.placement
  else if ty = "achievements" then cfg.achievements
  else if ty = "coderizz" then cfg.coderizz
  else ""

/-- Category resolution for the hard-coded URL variants (src/server.js
lines 147-157 and src/unnamed/part_003 lines 154-162): the placeholder
Google-Forms URLs. -/
def formUrlV0 (ty : String) : String :=
  if ty = "placement" then "https://docs.google.com/forms/d/PLACEMENT_FORM_ID/viewform"
  else if ty = "achievements" then "https://docs.google.com/forms/d/ACHIEVEMENTS_FORM_ID/viewform"
  else if ty = "coderizz" then "https://docs.google.com/forms/d/CODERIZZ_FORM_ID/viewform"
  else ""

/-- Variant V0 `GET /secure-form/:type` (src/server.js lines 144-165): the
requireAdmin gate, 404 on an unresolved category, and a `https.get` whose
success callback writes a 200 with the remote (or default text/html)
content-type and the piped body. The source attaches NO listener for the
request's `error` event, so on a network error no response is ever
written (the event goes unhandled). -/
def secureFormV0 (ck : SignedCookies) (ty : String) (f : FetchOutcome) : ProxyOutcome :=
  if !adminOk ck then ProxyOutcome.sent ⟨403, [], Body.jsonError "Forbidden", []⟩
  else if formUrlV0 ty = "" then ProxyOutcome.sent ⟨404, [], Body.empty, []⟩
  else
    match f with
    | FetchOutcome.success _ ct b =>
      ProxyOutcome.sent ⟨200, [("Content-Type", ct.getD "text/html")], Body.text b, []⟩
    | FetchOutcome.networkError => ProxyOutcome.noResponse

/-- Variant D `GET /secure-form/:type` (src/server.js lines 326-341):
requireAdmin gate, env-configured URL map, 404 when unresolved; on a
successful fetch the handler never sets a status (Express defaults to
200), forwards the content-type only when the remote sent one, and pipes
the body; a network error is answered 502. -/
def secureFormD (cfg : FormCfg) (ck : SignedCookies) (ty : String)
    (f : FetchOutcome) : HttpResp :=
  if !adminOk ck then ⟨403, [], Body.jsonError "Forbidden", []⟩
  else if resolveForm cfg ty = "" then ⟨404, [], Body.text "Form not configured", []⟩
  else
    match f with
    | FetchOutcome.success _ ct b => ⟨200, ctHeaders ct, Body.text b, []⟩
    | FetchOutcome.networkError => ⟨502, [], Body.text "Failed to load form", []⟩

/-- Variant P1 `GET /secure-form/:type` (src/unnamed/part_001 lines
175-198): requireAdmin gate, env-configured URL map, 404 when unresolved;
on a successful fetch the remote status (`statusCode || 200`) and
content-type are forwarded and the body piped; a network error is
answered 502. -/
def secureFormP1 (cfg : FormCfg) (ck : SignedCookies) (ty : String)
    (f : FetchOutcome) : HttpResp :=
  if !adminOk ck then ⟨403, [], Body.jsonError "Forbidden", []⟩
  else if resolveForm cfg ty = "" then ⟨404, [], Body.text "Form not configured", []⟩
  else
    match f with
    | FetchOutcome.success st ct b =>
      ⟨if st = 0 then 200 else st, ctHeaders ct, Body.text b, []⟩
    | FetchOutcome.networkError => ⟨502, [], Body.text "Failed to load form", []⟩

/-- Variant P3 `GET /secure-form/:type` (src/unnamed/part_003 lines
153-173): requireAdmin gate, hard-coded URL map, bare 404 when
unresolved; on success the status is never set (default 200), the
content-type defaults to text/html, the body is piped; a network error is
answered 500. -/
def secureFormP3 (ck : SignedCookies) (ty : String) (f : FetchOutcome) : HttpResp :=
  if !adminOk ck then ⟨403, [], Body.jsonError "Forbidden", []⟩
  else if formUrlV0 ty = "" then ⟨404, [], Body.empty, []⟩
  else
    match f with
    | FetchOutcome.success _ ct b =>
      ⟨200, [("Content-Type", ct.getD "text/html")], Body.text b, []⟩
    | FetchOutcome.networkError => ⟨500, [], Body.text "Error loading form", []⟩

/-- Variant B `GET /secure-form/:type` (src/unnamed/part_000 lines
388-398): requireAdmin gate, env-configured URL map, 404 when unresolved;
a configured category is answered with `res.redirect(url)` — a 302 whose
Location header is the configured upstream URL. The Express-generated
redirect body is elided (the Location header alone carries the URL). -/
def secureFormRedirect (cfg : FormCfg) (ck : SignedCookies) (ty : String) : HttpResp :=
  if !adminOk ck then ⟨403, [], Body.jsonError "Forbidden", []⟩
  else if resolveForm cfg ty = "" then ⟨404, [], Body.text "Form not configured", []⟩
  else ⟨302, [("Location", resolveForm cfg ty)], Body.empty, []⟩

/-- The fixed-env-credential `POST /api/login` (src/server.js lines 57-69,
identical in src/unnamed/part_003 lines 63-74): strict JS `===` of the
optional body fields against the optional environment values — an unset
env value and an absent body field are both `undefined`, and
`undefined === undefined` holds. On success the (possibly undefined)
email is stored in the signed cookie via `String(email)`. -/
def apiLoginFixed (envEmail envPhone bodyEmail bodyPhone : Option String) : HttpResp :=
  if bodyEmail == envEmail && bodyPhone == envPhone then
    ⟨200, [], Body.jsonSuccess true, [("auth", jsString bodyEmail)]⟩
  else ⟨401, [], Body.jsonSuccessMsg false "Invalid credentials", []⟩

/-- Merge-update of one entity's `notes` field, keys and sibling fields
kept (the entity written by the notes upsert carries only the key and
`notes`, so an Azure "Merge" touches nothing else). -/
def mergeNotes (e : Entity) (x : String) : Entity :=
  ⟨e.partitionKey, e.rowKey, some x, e.passwordHash, e.name, e.phone⟩

/-- The element-wise update a notes upsert performs on entities whose key
matches (principal, "notes"). -/
def updAt (p x : String) (e : Entity) : Entity :=
  if isKey p "notes" e then mergeNotes e x else e

/-- `upsertNotesToTable` (src/unnamed/part_001 lines 62-70, same shape in
src/unnamed/part_000 lines 245-253) as a pure transformer of the table
state: `upsertEntity({partitionKey: p, rowKey: 'notes', notes: x},
'Merge')` replaces the notes field of the existing row with that key, or
inserts the row when none exists. -/
def upsertNotesToTable (t : List Entity) (p x : String) : List Entity :=
  if t.any (isKey p "notes") then t.map (updAt p x)
  else t ++ [⟨p, "notes", some x, none, none, none⟩]

/-- Number of stored rows with key (p, "notes"). -/
def countNotesKey (t : List Entity) (p : String) : Nat :=
  (t.filter (isKey p "notes")).length

/-- `getNotesFromTable` (src/unnamed/part_001 lines 51-60) against a
concrete table state: the found entity's `notes || ''`, empty when the
row is missing. -/
def getNotesPure (t : List Entity) (p : String) : String :=
  match getEntity t p "notes" with
  | some e => e.notes.getD ""
  | none => ""

/-! Supporting lemmas about the notes upsert -/

/-- The element-wise update of an upsert does not change an entity's key. -/
theorem isKey_updAt (p x : String) (e : Entity) :
    isKey p "notes" (updAt p x e) = isKey p "notes" e := by
  unfold updAt
  by_cases h : isKey p "notes" e
  · rw [if_pos h]
    rfl
  · rw [if_neg h]

/-- Function form of `isKey_updAt` for rewriting under `map`. -/
theorem isKey_comp_updAt (p x : String) :
    (isKey p "notes" ∘ updAt p x) = isKey p "notes" :=
  funext fun e => isKey_updAt p x e

/-- After an upsert the table always holds a row with key (p, "notes"). -/
theorem any_upsert (t : List Entity) (p x : String) :
    (upsertNotesToTable t p x).any (isKey p "notes") = true := by
  unfold upsertNotesToTable
  cases hb : t.any (isKey p "notes") with
  | false => simp [hb, isKey]
  | true => simp [hb, List.any_map, isKey_comp_updAt]

/-- Reading back the key just upserted returns exactly the text written. -/
theorem getNotes_upsert (t : List Entity) (p x : String) :
    getNotesPure (upsertNotesToTable t p x) p = x := by
  unfold upsertNotesToTable getNotesPure getEntity
  cases hb : t.any (isKey p "notes") with
  | false =>
    simp only [hb, Bool.false_eq_true, if_false]
    rw [List.find?_append]
    have hnone : t.find? (isKey p "notes") = none :=
      List.find?_eq_none.mpr fun e he hpe => by
        have : t.any (isKey p "notes") = true := List.any_eq_true.mpr ⟨e, he, hpe⟩
        rw [hb] at this
        exact absurd this (by simp)
    rw [hnone]
    simp [List.find?, isKey]
  | true =>
    simp only [hb, if_true]
    rw [List.find?_map, isKey_comp_updAt]
    have hsome : (t.find? (isKey p "notes")).isSome := by
      rw [List.find?_isSome]
      exact List.any_eq_true.mp hb
    obtain ⟨e₀, he₀⟩ := Option.isSome_iff_exists.mp hsome
    have hq₀ : isKey p "notes" e₀ = true := List.find?_some he₀
    rw [he₀]
    simp [updAt, hq₀, mergeNotes]

/-- An upsert adds one row with the written key when none existed and
otherwise leaves the number of rows with that key unchanged. -/
theorem countNotes_upsert (t : List Entity) (p x : String) :
    countNotesKey (upsertNotesToTable t p x) p
      = if t.any (isKey p "notes") then countNotesKey t p else countNotesKey t p + 1 := by
  unfold upsertNotesToTable countNotesKey
  cases hb : t.any (isKey p "notes") with
  | false => simp [hb, List.filter_append, isKey]
  | true =>
    simp only [hb, if_true]
    rw [List.filter_map, isKey_comp_updAt, List.length_map]

/-- Every row carrying the upserted key holds the written text after the
upsert. -/
theorem notes_at_key_upsert (t : List Entity) (p x : String) :
    ∀ e ∈ upsertNotesToTable t p x, isKey p "notes" e = true → e.notes = some x := by
  intro e he hq
  unfold upsertNotesToTable at he
  cases hb : t.any (isKey p "notes") with
  | true =>
    rw [hb] at he
    simp only [if_true] at he
    obtain ⟨a, _, rfl⟩ := List.mem_map.mp he
    rw [isKey_updAt] at hq
    simp [updAt, hq, mergeNotes]
  | false =>
    rw [hb] at he
    simp only [Bool.false_eq_true, if_false, List.mem_append] at he
    rcases he with he | he
    · exfalso
      have : t.any (isKey p "notes") = true := List.any_eq_true.mpr ⟨e, he, hq⟩
      rw [hb] at this
      exact absurd this (by simp)
    · have : e = ⟨p, "notes", some x, none, none, none⟩ := by
        simpa using he
      rw [this]

/-- An entity whose notes already equal the written text is a fixed point
of the upsert's element-wise update. -/
theorem updAt_fix_of_notes (p x : String) (e : Entity)
    (h : isKey p "notes" e = true → e.notes = some x) : updAt p x e = e := by
  unfold updAt
  by_cases hq : isKey p "notes" e
  · rw [if_pos hq]
    cases e with
    | mk pk rk n ph nm phn =>
      have hn := h hq
      simp only [mergeNotes]
      simp only [Entity.notes] at hn
      rw [hn]
  · rw [if_neg hq]

/-- Mapping a function that fixes every member of a list is the
identity. -/
theorem map_self_of_fix {α : Type} {f : α → α} :
    ∀ (l : List α), (∀ e ∈ l, f e = e) → l.map f = l := by
  intro l
  induction l with
  | nil => intro _; rfl
  | cons a tl ih =>
    intro h
    simp only [List.map_cons]
    rw [h a (List.mem_cons_self a tl), ih fun e he => h e (List.mem_cons_of_mem a he)]

/-! Claim theorems -/

/-- C1 (counterexample): the claim demands that every deployment whose
backend supports live record lookup re-resolve the cookie identifier and
answer 401 when no staff record matches. In variant B
(src/unnamed/part_000) the remote staff table is configured and supports
lookup (`getUserB`), the identifier "ghost" matches no StaffRecord, yet
GET /api/notes with a validly signed cookie for "ghost" is answered 200
with empty notes, not 401. -/
theorem c1_counterexample :
    getUserB (some []) "ghost" = none ∧
    (getNotesRouteB (some []) ⟨some "ghost", none⟩).status = 200 := by
  exact ⟨rfl, rfl⟩

/-- C1 (amended): in the local-staff-list deployment (variant D,
src/server.js lines 252-264) every staff-protected operation re-resolves
the signed cookie identifier against staff.json and answers 401 whenever
no record matches; in the remote-staff-table deployment (variant B,
src/unnamed/part_000 lines 256-261) requireAuth trusts the signed
identifier without re-resolution, so a GET /api/notes whose identifier
matches no staff record is answered 200 with empty notes rather than
401. -/
theorem c1_live_lookup_by_variant :
    (∀ (sl : List Staff) (ck : SignedCookies) (a : String) (conf : Bool)
        (o : GetOutcome) (po : PutOutcome),
      ck.auth = some a →
      sl.find? (fun s => s.email == a) = none →
      (apiMeD sl ck).status = 401 ∧ (getNotesD sl ck conf o).status = 401 ∧
        (postNotesD sl ck conf po).status = 401)
    ∧ (getUserB (some []) "ghost" = none ∧
       getNotesRouteB (some []) ⟨some "ghost", none⟩ = ⟨200, [], Body.jsonNotes "", []⟩) := by
  constructor
  · intro sl ck a conf o po ha hf
    have hre : requireAuthD sl ck = none := by
      unfold requireAuthD
      rw [ha]
      by_cases h : a = "" <;> simp [h, hf]
    exact ⟨by simp [apiMeD, hre], by simp [getNotesD, hre], by simp [postNotesD, hre]⟩
  · exact ⟨rfl, rfl⟩

/-- C1 (witness): the amended theorem applied at a concrete deleted
identifier — the empty staff list and a signed cookie for "x". -/
theorem c1_live_lookup_by_variant_witness :
    (apiMeD [] ⟨some "x", none⟩).status = 401 ∧
    (getNotesD [] ⟨some "x", none⟩ true GetOutcome.notFound).status = 401 ∧
    (postNotesD [] ⟨some "x", none⟩ true PutOutcome.ok).status = 401 :=
  c1_live_lookup_by_variant.1 [] ⟨some "x", none⟩ "x" true GetOutcome.notFound
    PutOutcome.ok rfl rfl

/-- C2 (counterexample): the claim says the notes read never returns an
error status, but the variant P2 read path (src/unnamed/part_002 lines
97-115) answers a connectivity/other backend error with HTTP 500. -/
theorem c2_counterexample :
    (notesReadP2 true GetOutcome.connError).status = 500 := rfl

/-- C2 (amended): the P1/D and P3 read paths collapse a missing entry
(the backend's 404), a not-found-style error and a connectivity error to
the same empty-string success, as does an unconfigured backend; the P2
read path collapses the missing entry and 404-style error to the
empty-string success but answers any other backend error with status 500
and an empty notes body. -/
theorem c2_read_masking_by_variant :
    notesReadP1 false GetOutcome.connError = ⟨200, [], Body.jsonNotes "", []⟩
    ∧ notesReadP1 true GetOutcome.notFound = ⟨200, [], Body.jsonNotes "", []⟩
    ∧ notesReadP1 true GetOutcome.connError = ⟨200, [], Body.jsonNotes "", []⟩
    ∧ notesReadP3 true GetOutcome.notFound = ⟨200, [], Body.jsonNotes "", []⟩
    ∧ notesReadP3 true GetOutcome.connError = ⟨200, [], Body.jsonNotes "", []⟩
    ∧ notesReadP2 true GetOutcome.notFound = ⟨200, [], Body.jsonNotes "", []⟩
    ∧ notesReadP2 true GetOutcome.connError = ⟨500, [], Body.jsonNotes "", []⟩ :=
  ⟨rfl, rfl, rfl, rfl, rfl, rfl, rfl⟩

/-- C3 (counterexample): the claim says no server-produced part of an
admin-authenticated, configured GET /secure-form/:type response contains
the configured upstream URL, but the variant B handler
(src/unnamed/part_000 lines 388-398) redirects: its Location header is
exactly the configured URL. -/
theorem c3_counterexample :
    (secureFormRedirect
        ⟨"https://docs.google.com/forms/d/SECRET_ID/viewform", "", ""⟩
        ⟨none, some "true"⟩ "placement").headers
      = [("Location", "https://docs.google.com/forms/d/SECRET_ID/viewform")] := rfl

/-- C3 (amended): the streaming variant P1 reveals nothing about the
configured URL — its whole response is unchanged when one configured URL
is replaced by another, for every session, category and fetch outcome —
while the variant B handler places the configured URL verbatim in the
Location header of every admin-authenticated configured request. -/
theorem c3_url_hiding_by_variant :
    (∀ (cfgA cfgB : FormCfg) (ck : SignedCookies) (ty : String) (f : FetchOutcome),
      resolveForm cfgA ty ≠ "" → resolveForm cfgB ty ≠ "" →
      secureFormP1 cfgA ck ty f = secureFormP1 cfgB ck ty f)
    ∧ (∀ (cfg : FormCfg) (ck : SignedCookies) (ty : String),
      adminOk ck = true → resolveForm cfg ty ≠ "" →
      (secureFormRedirect cfg ck ty).headers = [("Location", resolveForm cfg ty)]) := by
  constructor
  · intro cfgA cfgB ck ty f hA hB
    unfold secureFormP1
    cases h : adminOk ck <;> simp [h, hA, hB]
  · intro cfg ck ty h hu
    simp [secureFormRedirect, h, hu]

/-- C3 (witness): the amended theorem applied at two concrete distinct
configured URLs (responses agree on a network error) and at one concrete
redirect deployment. -/
theorem c3_url_hiding_by_variant_witness :
    secureFormP1 ⟨"https://a.example/f1", "", ""⟩ ⟨none, some "true"⟩ "placement"
        FetchOutcome.networkError
      = secureFormP1 ⟨"https://b.example/f2", "", ""⟩ ⟨none, some "true"⟩ "placement"
        FetchOutcome.networkError
    ∧ (secureFormRedirect ⟨"https://a.example/f1", "", ""⟩ ⟨none, some "true"⟩
        "placement").headers = [("Location", "https://a.example/f1")] :=
  ⟨c3_url_hiding_by_variant.1 ⟨"https://a.example/f1", "", ""⟩
      ⟨"https://b.example/f2", "", ""⟩ ⟨none, some "true"⟩ "placement"
      FetchOutcome.networkError (by decide) (by decide),
   c3_url_hiding_by_variant.2 ⟨"https://a.example/f1", "", ""⟩
      ⟨none, some "true"⟩ "placement" rfl (by decide)⟩

/-- C4 (counterexample): the claim says every streaming variant carries
the remote status verbatim, but the variant D handler (src/server.js
lines 326-341) never sets a status: a remote 404 is relayed to the caller
as 200. -/
theorem c4_counterexample :
    (secureFormD ⟨"https://u.example/p", "", ""⟩ ⟨none, some "true"⟩ "placement"
        (FetchOutcome.success 404 (some "text/html") "gone")).status = 200 ∧
    (secureFormD ⟨"https://u.example/p", "", ""⟩ ⟨none, some "true"⟩ "placement"
        (FetchOutcome.success 404 (some "text/html") "gone")).status ≠ 404 :=
  ⟨rfl, by decide⟩

/-- C4 (amended): on an admin-authenticated configured request whose
outbound fetch succeeds, variant P1 (src/unnamed/part_001 lines 187-193)
forwards the remote status and content-type verbatim and relays the body;
variants D (src/server.js lines 334-341) and P3 (src/unnamed/part_003
lines 166-173) relay the body — D forwarding the content-type only when
present, P3 substituting text/html when absent — but both always answer
status 200 regardless of the remote status. -/
theorem c4_forwarding_by_variant :
    ∀ (cfg : FormCfg) (ck : SignedCookies) (ty : String) (st : Nat)
      (ct : Option String) (b : String),
      adminOk ck = true → st ≠ 0 →
      (resolveForm cfg ty ≠ "" →
        secureFormP1 cfg ck ty (FetchOutcome.success st ct b)
          = ⟨st, ctHeaders ct, Body.text b, []⟩)
      ∧ (resolveForm cfg ty ≠ "" →
        secureFormD cfg ck ty (FetchOutcome.success st ct b)
          = ⟨200, ctHeaders ct, Body.text b, []⟩)
      ∧ (formUrlV0 ty ≠ "" →
        secureFormP3 ck ty (FetchOutcome.success st ct b)
          = ⟨200, [("Content-Type", ct.getD "text/html")], Body.text b, []⟩) := by
  intro cfg ck ty st ct b hadm hst
  refine ⟨fun hu => ?_, fun hu => ?_, fun hu => ?_⟩
  · simp [secureFormP1, hadm, hu, hst]
  · simp [secureFormD, hadm, hu]
  · simp [secureFormP3, hadm, hu]

/-- C4 (witness): the amended theorem at a concrete remote response with
status 503 and content-type text/plain. -/
theorem c4_forwarding_by_variant_witness :
    secureFormP1 ⟨"https://a.example/f1", "", ""⟩ ⟨none, some "true"⟩ "placement"
        (FetchOutcome.success 503 (some "text/plain") "oops")
      = ⟨503, ctHeaders (some "text/plain"), Body.text "oops", []⟩ :=
  (c4_forwarding_by_variant ⟨"https://a.example/f1", "", ""⟩ ⟨none, some "true"⟩
      "placement" 503 (some "text/plain") "oops" rfl (by decide)).1 (by decide)

/-- C5 (code evaluation at the failing input): in the earliest secure-form
registration (src/server.js lines 144-165) the `https.get` call has no
listener for the request's `error` event, so an admin-authenticated
request for the configured category "placement" whose outbound fetch
fails with a network error produces no response at all — not the
500/502-class status the claim (and the other variants) require. -/
theorem c5_unhandled_fetch_error_eval :
    secureFormV0 ⟨none, some "true"⟩ "placement" FetchOutcome.networkError
      = ProxyOutcome.noResponse := rfl

/-- C6: in the username+password staff login (src/unnamed/part_000 lines
269-293) the three failure causes — no stored record, a record without a
truthy stored password hash, and a password failing the one-way hash
comparison — all produce the identical response: status 401, body
success:false, no cookie set. A caller therefore cannot distinguish them
to enumerate usernames. -/
theorem c6_login_failure_indistinguishable :
    ∀ (tc : Option (List Entity)) (bc : String → String → Bool) (u p : String),
      u ≠ "" → p ≠ "" →
      (getUserB tc u = none
        ∨ (∃ e, getUserB tc u = some e ∧ (e.passwordHash = none ∨ e.passwordHash = some ""))
        ∨ (∃ e h, getUserB tc u = some e ∧ e.passwordHash = some h ∧ h ≠ "" ∧ bc p h = false)) →
      staffLoginB tc bc (some u) (some p) = ⟨401, [], Body.jsonSuccess false, []⟩ := by
  intro tc bc u p hu hp hcause
  rcases hcause with h | ⟨e, he, hph | hph⟩ | ⟨e, h, he, hph, hh, hbc⟩
  · simp [staffLoginB, hu, hp, h]
  · simp [staffLoginB, hu, hp, he, hph]
  · simp [staffLoginB, hu, hp, he, hph]
  · simp [staffLoginB, hu, hp, he, hph, hh, hbc]

/-- C6 (witness): the theorem applied at a concrete missing record — the
configured but empty staff table and the login attempt alice/pw. -/
theorem c6_login_failure_indistinguishable_witness :
    staffLoginB (some []) (fun _ _ => false) (some "alice") (some "pw")
      = ⟨401, [], Body.jsonSuccess false, []⟩ :=
  c6_login_failure_indistinguishable (some []) (fun _ _ => false) "alice" "pw"
    (by decide) (by decide) (Or.inl rfl)

/-- C7: for GET /secure-form/:type (src/server.js lines 326-341 with
requireAdmin, lines 265-269), a request without a valid admin session is
answered 403 whatever the category and configuration, and an
admin-authenticated request whose category is unknown or unconfigured is
answered 404 — the admin-session check is decided before category
resolution. -/
theorem c7_admin_gate_before_category :
    (∀ (cfg : FormCfg) (ck : SignedCookies) (ty : String) (f : FetchOutcome),
      adminOk ck = false →
      secureFormD cfg ck ty f = ⟨403, [], Body.jsonError "Forbidden", []⟩)
    ∧ (∀ (cfg : FormCfg) (ck : SignedCookies) (ty : String) (f : FetchOutcome),
      adminOk ck = true → resolveForm cfg ty = "" →
      secureFormD cfg ck ty f = ⟨404, [], Body.text "Form not configured", []⟩) := by
  constructor
  · intro cfg ck ty f h
    simp [secureFormD, h]
  · intro cfg ck ty f h hu
    simp [secureFormD, h, hu]

/-- C7 (witness): the theorem at the concrete category "unknown-category"
with the placement URL configured — 403 without the admin cookie, 404
with it. -/
theorem c7_admin_gate_before_category_witness :
    secureFormD ⟨"https://a.example/f1", "", ""⟩ ⟨none, none⟩ "unknown-category"
        FetchOutcome.networkError = ⟨403, [], Body.jsonError "Forbidden", []⟩
    ∧ secureFormD ⟨"https://a.example/f1", "", ""⟩ ⟨none, some "true"⟩
        "unknown-category" FetchOutcome.networkError
      = ⟨404, [], Body.text "Form not configured", []⟩ :=
  ⟨c7_admin_gate_before_category.1 ⟨"https://a.example/f1", "", ""⟩ ⟨none, none⟩
      "unknown-category" FetchOutcome.networkError rfl,
   c7_admin_gate_before_category.2 ⟨"https://a.example/f1", "", ""⟩
      ⟨none, some "true"⟩ "unknown-category" FetchOutcome.networkError rfl rfl⟩

/-- C8: session kinds are strictly disjoint. A request carrying only a
valid admin session cookie (adminAuth "true", no auth cookie) is answered
401 by every staff-protected operation, and a request carrying only a
staff session cookie (any auth value, no adminAuth cookie) is answered
403 by every admin-protected operation, across the variants: the two
middlewares read different cookie names and grant nothing across kinds. -/
theorem c8_session_kinds_disjoint :
    ∀ (sl : List Staff) (tc : Option (List Entity)) (cfg : FormCfg) (conf : Bool)
      (o : GetOutcome) (po : PutOutcome) (f : FetchOutcome)
      (hash : String → String) (u ty : String) (bu bn bph bpw : Option String),
      ((apiMeD sl ⟨none, some "true"⟩).status = 401
        ∧ (getNotesD sl ⟨none, some "true"⟩ conf o).status = 401
        ∧ (postNotesD sl ⟨none, some "true"⟩ conf po).status = 401
        ∧ (getNotesRouteB tc ⟨none, some "true"⟩).status = 401)
      ∧ ((createUserB tc hash ⟨some u, none⟩ bu bn bph bpw).status = 403
        ∧ (secureFormD cfg ⟨some u, none⟩ ty f).status = 403
        ∧ (secureFormP1 cfg ⟨some u, none⟩ ty f).status = 403
        ∧ (secureFormRedirect cfg ⟨some u, none⟩ ty).status = 403) := by
  intro sl tc cfg conf o po f hash u ty bu bn bph bpw
  refine ⟨⟨?_, ?_, ?_, ?_⟩, ⟨?_, ?_, ?_, ?_⟩⟩
  · simp [apiMeD, requireAuthD]
  · simp [getNotesD, requireAuthD]
  · simp [postNotesD, requireAuthD]
  · simp [getNotesRouteB, requireAuthB]
  · simp [createUserB, adminOk]
  · simp [secureFormD, adminOk]
  · simp [secureFormP1, adminOk]
  · simp [secureFormRedirect, adminOk]

/-- C9: against a real table backend whose rows have unique keys (at most
one row with key (p, "notes") — the Azure invariant), writing the notes
upsert for (p, x) twice in a row is idempotent (the second write is a
no-op on the table state), leaves exactly one stored row with key
(p, "notes"), and a subsequent read for p returns exactly x — not
duplicated, not concatenated. -/
theorem c9_notes_upsert_idempotent :
    ∀ (t : List Entity) (p x : String),
      countNotesKey t p ≤ 1 →
      upsertNotesToTable (upsertNotesToTable t p x) p x = upsertNotesToTable t p x
      ∧ countNotesKey (upsertNotesToTable (upsertNotesToTable t p x) p x) p = 1
      ∧ getNotesPure (upsertNotesToTable (upsertNotesToTable t p x) p x) p = x := by
  intro t p x hle
  have hidem : upsertNotesToTable (upsertNotesToTable t p x) p x
      = upsertNotesToTable t p x := by
    have hfix : ∀ e ∈ upsertNotesToTable t p x, updAt p x e = e := fun e he =>
      updAt_fix_of_notes p x e (notes_at_key_upsert t p x e he)
    have hany1 := any_upsert t p x
    conv_lhs => rw [upsertNotesToTable]
    rw [if_pos hany1]
    exact map_self_of_fix _ hfix
  have hcount1 : countNotesKey (upsertNotesToTable t p x) p = 1 := by
    rw [countNotes_upsert]
    cases hb : t.any (isKey p "notes") with
    | true =>
      obtain ⟨e, he, hq⟩ := List.any_eq_true.mp hb
      have hmem : e ∈ t.filter (isKey p "notes") := List.mem_filter.mpr ⟨he, hq⟩
      have hpos : 0 < countNotesKey t p :=
        List.length_pos.mpr (List.ne_nil_of_mem hmem)
      simp only [if_true]
      omega
    | false =>
      have hzero : countNotesKey t p = 0 := by
        unfold countNotesKey
        rw [List.filter_eq_nil_iff.mpr (List.any_eq_false.mp hb)]
        rfl
      simp only [Bool.false_eq_true, if_false]
      omega
  refine ⟨hidem, ?_, getNotes_upsert _ p x⟩
  rw [hidem]
  exact hcount1

/-- C9 (witness): the theorem at the empty table and the pair
(alice, hello) — after the double write the table holds exactly one
alice/notes row and the read returns hello. -/
theorem c9_notes_upsert_idempotent_witness :
    upsertNotesToTable (upsertNotesToTable [] "alice" "hello") "alice" "hello"
      = upsertNotesToTable [] "alice" "hello"
    ∧ countNotesKey
        (upsertNotesToTable (upsertNotesToTable [] "alice" "hello") "alice" "hello")
        "alice" = 1
    ∧ getNotesPure
        (upsertNotesToTable (upsertNotesToTable [] "alice" "hello") "alice" "hello")
        "alice" = "hello" :=
  c9_notes_upsert_idempotent [] "alice" "hello" (by decide)

/-- C10: in the fixed-environment-credential login (src/server.js lines
57-69, src/unnamed/part_003 lines 63-74) with STAFF_EMAIL and STAFF_PHONE
both unset, a POST /api/login whose body lacks both fields is accepted —
undefined === undefined holds for both comparisons — returning
success:true and setting the signed staff cookie (whose value becomes the
string "undefined"). -/
theorem c10_unset_env_empty_login_accepted :
    apiLoginFixed none none none none
      = ⟨200, [], Body.jsonSuccess true, [("auth", "undefined")]⟩ := rfl

end Portal
